import Mathlib

/-!
Verification of `src/synthesize.py` (Markdown → personal-voice TTS client).

The program is embedded shallowly: each pure transformation of the source is
a Lean function, and the effectful steps (HTTP calls, file writes, process
exit) are modeled by explicit outcome values fed into the functions that
consume them.  Machine strings are Lean `String`s (lists of characters);
response bodies are lists of bytes (`List Nat`).

The Markdown extractor of `read_markdown` (lines 62-80) is a chain of nine
`re.sub` passes.  Each pass is embedded as a left-to-right scanner that at
every position attempts the pattern with Python `re` semantics (leftmost
match, lazy/greedy backtracking as the concrete pattern demands, `.` not
matching a newline, a negated class matching a newline, `re.MULTILINE`
anchoring of `^` after a newline) and on a match emits the replacement and
resumes after the match, exactly as `re.sub` does.  None of the patterns can
match the empty string, so the scanner advances at least one character per
step and a fuel argument of the input length makes the recursion structural.

`\s`, `str.strip()` and `str.isspace()` are modeled over the ASCII
whitespace characters (space, tab, newline, carriage return, vertical tab,
form feed); none of the claims exercises non-ASCII whitespace.  JSON values
read by the trial error handler are modeled down to the shape the code
inspects, with string-valued `message` fields.
-/

/-- Configuration record loaded by `load_config` (lines 29-47): the three
required keys plus the four defaulted ones.  All fields are strings. -/
structure Config where
  SPEECH_KEY : String
  SPEECH_REGION : String
  SPEAKER_PROFILE_ID : String
  SPEECH_LANGUAGE : String
  SPEECH_STYLE : String
  OUTPUT_FORMAT : String
  OUTPUT_FILENAME : String
deriving DecidableEq

/-- ASCII whitespace, as matched by Python's `\s` and stripped by
`str.strip()` (space, tab, newline, carriage return, vertical tab, form
feed). -/
def pySpace (c : Char) : Bool :=
  c = ' ' || c = '\t' || c = '\n' || c = '\r' || c = Char.ofNat 11 || c = Char.ofNat 12

/-- Length of the longest prefix of `l` whose characters satisfy `p`. -/
def countLeading (p : Char → Bool) : List Char → Nat
  | [] => 0
  | c :: cs => if p c then countLeading p cs + 1 else 0

/-- Greedy `[^stop]*stop`: the characters before the first occurrence of
`stop`, and the rest after that occurrence; `none` when `stop` never occurs.
This is how a greedy negated class followed by the literal `stop` matches
(the class cannot absorb `stop`, so backtracking never moves the split). -/
def takeUntilChar (stop : Char) : List Char → Option (List Char × List Char)
  | [] => none
  | c :: cs =>
    if c = stop then some ([], cs)
    else
      match takeUntilChar stop cs with
      | some (t, r) => some (c :: t, r)
      | none => none

/-- `re.sub` driver for an unanchored pattern: at each position try the
matcher; on a match emit its replacement and resume after the match,
otherwise keep the character and move on.  All matchers consume at least one
character, so fuel `l.length` suffices. -/
def subPass (tryM : List Char → Option (List Char × List Char)) : Nat → List Char → List Char
  | 0, l => l
  | _ + 1, [] => []
  | fuel + 1, c :: cs =>
    match tryM (c :: cs) with
    | some (repl, rest) => repl ++ subPass tryM fuel rest
    | none => c :: subPass tryM fuel cs

/-- `re.sub` driver for a `re.MULTILINE` `^`-anchored pattern: the matcher is
tried only at the start of the string or right after a newline.  The matcher
reports the last character it consumed so the driver knows whether the
position after the match is a line start. -/
def subPassML (tryM : List Char → Option (List Char × Char × List Char)) :
    Nat → Bool → List Char → List Char
  | 0, _, l => l
  | _ + 1, _, [] => []
  | fuel + 1, atStart, c :: cs =>
    if atStart then
      match tryM (c :: cs) with
      | some (repl, lastC, rest) => repl ++ subPassML tryM fuel (lastC = '\n') rest
      | none => c :: subPassML tryM fuel (c = '\n') cs
    else c :: subPassML tryM fuel (c = '\n') cs

/-- Lazy `.*?\)` (line 63, second group): the first `)` reachable without
crossing a newline ends the match; `.` cannot cross `\n`. -/
def imageParen : List Char → Option (List Char)
  | [] => none
  | c :: cs =>
    if c = ')' then some cs
    else if c = '\n' then none
    else imageParen cs

/-- Lazy `.*?\]\(.*?\)` (line 63, after `![`): at each `]` try the `(...)`
continuation; if it fails, the `.` of the lazy group may consume the `]` and
the search continues.  A newline stops the search (`.` does not match it). -/
def imageBody : List Char → Option (List Char)
  | [] => none
  | c :: cs =>
    if c = ']' then
      match cs with
      | '(' :: cs2 =>
        match imageParen cs2 with
        | some rest => some rest
        | none => imageBody cs
      | _ => imageBody cs
    else if c = '\n' then none
    else imageBody cs

/-- Pass 1 (line 63): `re.sub(r"!\[.*?\]\(.*?\)", "", text)` — image
references removed entirely. -/
def imageTry : List Char → Option (List Char × List Char)
  | '!' :: '[' :: rest =>
    match imageBody rest with
    | some r => some ([], r)
    | none => none
  | _ => none

/-- Pass 2 (line 65): `re.sub(r"\[([^\]]+)\]\([^\)]+\)", r"\1", text)` —
a link collapses to its text.  Both negated classes are greedy and stop at
the first closing bracket; both need at least one character. -/
def linkTry : List Char → Option (List Char × List Char)
  | '[' :: rest =>
    (match takeUntilChar ']' rest with
     | some (t, r) =>
       if t = [] then none
       else
         match r with
         | '(' :: r2 =>
           (match takeUntilChar ')' r2 with
            | some (u, r3) => if u = [] then none else some (t, r3)
            | none => none)
         | _ => none
     | none => none)
  | _ => none

/-- Pass 3 (line 67): `re.sub(r"^#{1,6}\s+", "", text, flags=re.MULTILINE)`.
At a line start, a run of 1-6 `#` followed by at least one whitespace
character matches; `\s+` is greedy (it crosses newlines).  A run of more
than six `#` never matches: every shorter open leaves a `#`, not whitespace,
as the next character. -/
def headingTry (l : List Char) : Option (List Char × Char × List Char) :=
  let h := countLeading (fun c => c = '#') l
  if h = 0 then none
  else if h ≤ 6 then
    let rest := l.drop h
    let w := countLeading pySpace rest
    if w = 0 then none
    else some ([], ((l.take (h + w)).getLastD ' '), rest.drop w)
  else none

/-- The group-and-close search of `(.*?)␣{1,3}` for emphasis marker `m`
(lines 69-70): the lazy group stops at the first marker character reachable
without a newline (a marker position always closes, since the greedy closing
`␣{1,3}` just needs one marker), and the closing run takes at most three
markers. -/
def emphScan (m : Char) : List Char → Option (List Char × List Char)
  | [] => none
  | c :: cs =>
    if c = m then
      some ([], (c :: cs).drop (min 3 (countLeading (fun x => x = m) (c :: cs))))
    else if c = '\n' then none
    else
      match emphScan m cs with
      | some (g, r) => some (c :: g, r)
      | none => none

/-- The greedy opening `␣{1,3}` backtracks from `o` markers down to one,
running the group-and-close search after each choice. -/
def emphOpen (m : Char) (l : List Char) : Nat → Option (List Char × List Char)
  | 0 => none
  | o + 1 =>
    match emphScan m (l.drop (o + 1)) with
    | some (g, r) => some (g, r)
    | none => emphOpen m l o

/-- Passes 4 and 5 (lines 69-70): `re.sub(r"\*{1,3}(.*?)\*{1,3}", r"\1", text)`
and the same with `_` — emphasis markers dropped, the enclosed text kept. -/
def emphTry (m : Char) (l : List Char) : Option (List Char × List Char) :=
  let r := countLeading (fun x => x = m) l
  if r = 0 then none else emphOpen m l (min 3 r)

/-- Pass 6 (line 72): `re.sub(r"`([^`]+)`", r"\1", text)` — inline-code
backticks dropped, content (one or more non-backticks, newlines included)
kept. -/
def codeTry : List Char → Option (List Char × List Char)
  | '`' :: rest =>
    (match takeUntilChar '`' rest with
     | some (t, r) => if t = [] then none else some (t, r)
     | none => none)
  | _ => none

/-- Lazy `[\s\S]*?```` (line 74): anything, newlines included, up to the
first triple backtick. -/
def fenceClose : List Char → Option (List Char)
  | '`' :: '`' :: '`' :: rest => some rest
  | _ :: cs => fenceClose cs
  | [] => none

/-- Pass 7 (line 74): `re.sub(r"```[\s\S]*?```", "", text)` — a fenced code
block, content included, removed entirely. -/
def fenceTry : List Char → Option (List Char × List Char)
  | '`' :: '`' :: '`' :: rest =>
    (match fenceClose rest with
     | some r => some ([], r)
     | none => none)
  | _ => none

/-- Largest index of a newline in the list (for the backtracking of
`\s*$`). -/
def lastNewlinePos : List Char → Option Nat
  | [] => none
  | c :: cs =>
    match lastNewlinePos cs with
    | some i => some (i + 1)
    | none => if c = '\n' then some 0 else none

/-- Pass 8 (line 76): `re.sub(r"^[-*_]{3,}\s*$", "", text, flags=re.MULTILINE)`.
At a line start, a maximal run of three or more `-`/`*`/`_`; the greedy
`\s*` then consumes the following whitespace up to the end of the string,
or backtracks to stop just before the last newline of that whitespace run
(`$` holds at the end or before a newline); with neither, no match. -/
def hrTry (l : List Char) : Option (List Char × Char × List Char) :=
  let rr := countLeading (fun c => c = '-' || c = '*' || c = '_') l
  if rr < 3 then none
  else
    let rest := l.drop rr
    let w := countLeading pySpace rest
    if rest.drop w = [] then
      some ([], ((l.take (rr + w)).getLastD ' '), rest.drop w)
    else
      match lastNewlinePos (rest.take w) with
      | some j => some ([], ((l.take (rr + j)).getLastD ' '), rest.drop j)
      | none => none

/-- Pass 9 (line 78): `re.sub(r"\n{3,}", "\n\n", text)` — a run of three or
more newlines collapses to two. -/
def collapseTry (l : List Char) : Option (List Char × List Char) :=
  let r := countLeading (fun c => c = '\n') l
  if 3 ≤ r then some (['\n', '\n'], l.drop r) else none

/-- `str.strip()` (line 80): leading and trailing whitespace removed. -/
def pyStrip (l : List Char) : List Char :=
  ((l.dropWhile pySpace).reverse.dropWhile pySpace).reverse

/-- One unanchored pass over the whole text. -/
def runPass (tryM : List Char → Option (List Char × List Char)) (l : List Char) : List Char :=
  subPass tryM (l.length + 1) l

/-- One `re.MULTILINE`-anchored pass over the whole text (position 0 is a
line start). -/
def runPassML (tryM : List Char → Option (List Char × Char × List Char)) (l : List Char) : List Char :=
  subPassML tryM (l.length + 1) true l

/-- The pure text transformation of `read_markdown` (lines 62-80): the nine
rewrite passes in source order, then `strip()`. -/
def extractText (s : String) : String :=
  let t1 := runPass imageTry s.data
  let t2 := runPass linkTry t1
  let t3 := runPassML headingTry t2
  let t4 := runPass (emphTry '*') t3
  let t5 := runPass (emphTry '_') t4
  let t6 := runPass codeTry t5
  let t7 := runPass fenceTry t6
  let t8 := runPassML hrTry t7
  let t9 := runPass collapseTry t8
  String.mk (pyStrip t9)

/-- The empty-text check of `main` (lines 285-287): `if not text:` on a
string is true exactly when it is empty, and then the process exits 1 before
any synthesis call. -/
def emptyTextFatal (text : String) : Bool :=
  text = ""

/-- Outcome of the probe request `requests.get` in `is_trial_voice`
(lines 258-262): either an HTTP response with a status code, or a raised
exception (connection failure, timeout, ...). -/
inductive ProbeOutcome where
  | response (status : Nat)
  | networkFailure
deriving DecidableEq

/-- `is_trial_voice` (lines 247-262): `r.status_code == 200` on a response;
the `try/except` turns any raised exception into `False`, so no exception
propagates. -/
def is_trial_voice (outcome : ProbeOutcome) : Bool :=
  match outcome with
  | .response s => s == 200
  | .networkFailure => false

/-- The trial-registry URL the probe hits (lines 253-256). -/
def probeUrl (c : Config) : String :=
  "https://" ++ c.SPEECH_REGION ++ ".api.cognitive.microsoft.com" ++
    "/customvoice/trial/zeroshots/" ++ c.SPEAKER_PROFILE_ID ++ "?api-version=2023-07-01-preview"

/-- The two synthesis branches of `main` (lines 302-307). -/
inductive Branch where
  | trial
  | expressive
deriving DecidableEq

/-- The CLI override in `main` (lines 296-298): when `-o`/`--output` was
given, `config["OUTPUT_FILENAME"] = args.output` replaces that one field of
the dict returned by `load_config`; otherwise the dict is left as loaded. -/
def mainConfig (loaded : Config) (cliOutput : Option String) : Config :=
  match cliOutput with
  | some o => { loaded with OUTPUT_FILENAME := o }
  | none => loaded

/-- What `main` (lines 294-307) hands to the prober and to the selected
synthesis branch: the (possibly overridden) configuration, and the branch
chosen from the probe outcome. -/
structure DispatchResult where
  usedConfig : Config
  branch : Branch
deriving DecidableEq

/-- `main`'s dispatch (lines 294-307): load, optionally override the output
filename, probe, then pick `synthesize_trial` or `synthesize_sdk`; the same
`config` value is passed to `is_trial_voice` and to the chosen branch. -/
def mainDispatch (loaded : Config) (cliOutput : Option String) (probe : ProbeOutcome) :
    DispatchResult :=
  let config := mainConfig loaded cliOutput
  { usedConfig := config
    branch := if is_trial_voice probe then Branch.trial else Branch.expressive }

/-- `output_file` of `synthesize_trial` (line 92):
`f"{config['OUTPUT_FILENAME']}.{config['OUTPUT_FORMAT']}"`. -/
def trialOutputFile (c : Config) : String :=
  c.OUTPUT_FILENAME ++ "." ++ c.OUTPUT_FORMAT

/-- `SCRIPT_ORDER_BY_LOCALE` of `synthesize_trial` (lines 111-117), in
source order. -/
def SCRIPT_ORDER_BY_LOCALE : List (String × Nat) :=
  [("en-US", 11), ("en-GB", 11), ("en-AU", 11), ("en-IN", 11),
   ("es-ES", 13), ("es-MX", 13),
   ("fr-FR", 12), ("de-DE", 12), ("it-IT", 12),
   ("ja-JP", 14), ("ko-KR", 14), ("zh-CN", 14),
   ("pt-BR", 13)]

/-- `SCRIPT_ORDER_BY_LOCALE.get(language, 11)` (line 118). -/
def scriptOrderFor (language : String) : Nat :=
  (SCRIPT_ORDER_BY_LOCALE.lookup language).getD 11

/-- The model-resource URL of the trial request (lines 98-101). -/
def trialModelUrl (c : Config) : String :=
  "https://" ++ c.SPEECH_REGION ++ ".api.cognitive.microsoft.com" ++
    "/customvoice/trial/zeroshots/" ++ c.SPEAKER_PROFILE_ID ++ "?api-version=2023-07-01-preview"

/-- The JSON body of the trial synthesis POST (lines 120-126). -/
structure TrialBody where
  model : String
  locale : String
  scriptOrder : Nat
  text : String
  baseModelName : String
deriving DecidableEq

/-- `body` of `synthesize_trial` (lines 120-126). -/
def trialBody (c : Config) (text : String) : TrialBody :=
  { model := trialModelUrl c
    locale := c.SPEECH_LANGUAGE
    scriptOrder := scriptOrderFor c.SPEECH_LANGUAGE
    text := text
    baseModelName := "DragonLatestNeural" }

/-- The nested `innererror` object as far as line 148 reads it: absent,
present but not a JSON object (so `.get` raises), or an object with an
optional string `message`. -/
inductive InnerErrorField where
  | absent
  | nonObject
  | object (message : Option String)
deriving DecidableEq

/-- The `error` member as far as lines 147-148 read it. -/
inductive ErrorField where
  | absent
  | nonObject
  | object (message : Option String) (innererror : InnerErrorField)
deriving DecidableEq

/-- What `response.json()` (line 146) yields: a raised parse error, a
non-object JSON value (on which `.get` raises), or an object with its
`error` member. -/
inductive BodyJson where
  | notJson
  | nonObject
  | object (error : ErrorField)
deriving DecidableEq

/-- The trial synthesis HTTP response (line 136) as the code inspects it:
status code, the `Content-Type` header with `headers.get`'s `""` default
already applied, the body bytes, the parsed JSON shape, and `response.text`. -/
structure TrialResponse where
  status : Nat
  contentType : String
  content : List Nat
  body : BodyJson
  text : String
deriving DecidableEq

/-- `response.text[:300]` (lines 147, 153). -/
def pyTake300 (s : String) : String :=
  String.mk (s.data.take 300)

/-- The failure diagnostic of `synthesize_trial` (lines 145-153): either the
structured message (with the nested detail printed only when non-empty), or
the raw `response.text[:300]` when JSON parsing or a `.get` chain raised. -/
inductive FailDetail where
  | structured (message : String) (inner : Option String)
  | raw (textPart : String)
deriving DecidableEq

/-- Lines 145-153: `err = response.json()`;
`msg = err.get("error", {}).get("message", response.text[:300])`;
`inner = err.get("error", {}).get("innererror", {}).get("message", "")`;
any exception in that chain falls to the `except` branch that prints
`response.text[:300]`; `inner` is printed only if it is truthy. -/
def extractFail (r : TrialResponse) : FailDetail :=
  match r.body with
  | .notJson => .raw (pyTake300 r.text)
  | .nonObject => .raw (pyTake300 r.text)
  | .object e =>
    match e with
    | .nonObject => .raw (pyTake300 r.text)
    | .absent => .structured (pyTake300 r.text) none
    | .object msg inner =>
      match inner with
      | .nonObject => .raw (pyTake300 r.text)
      | .absent => .structured (msg.getD (pyTake300 r.text)) none
      | .object im =>
        .structured (msg.getD (pyTake300 r.text))
          (if im.getD "" = "" then none else some (im.getD ""))

/-- The success test of line 138: `response.status_code == 200 and "audio"
in response.headers.get("Content-Type", "")` (Python's `in` on strings is
substring containment). -/
def audioOk (r : TrialResponse) : Bool :=
  r.status == 200 && decide ("audio".data <:+: r.contentType.data)

/-- The observable outcome of `synthesize_trial`'s response handling:
whether a file was written (path and bytes), the process exit code (0 when
the function returns normally, 1 via `sys.exit(1)`), and the failure report
if any. -/
structure TrialRun where
  written : Option (String × List Nat)
  exitCode : Nat
  failReport : Option (Nat × FailDetail)
deriving DecidableEq

/-- The response handling of `synthesize_trial` (lines 136-154): on status
200 with an audio content type, write `response.content` verbatim to
`output_file` and return (exit 0); otherwise write nothing, report the HTTP
status with the extracted diagnostic, and `sys.exit(1)`. -/
def synthesize_trial (c : Config) (r : TrialResponse) : TrialRun :=
  if audioOk r then
    { written := some (trialOutputFile c, r.content), exitCode := 0, failReport := none }
  else
    { written := none, exitCode := 1, failReport := some (r.status, extractFail r) }

/-- One character of Python's `html.escape(s, quote=True)` (module `html`):
`&` `<` `>` `"` `'` become entities, all else is kept.  `html.escape`
replaces `&` first and the quote entities introduce no character that a
later replacement touches, so the sequential `str.replace` chain equals this
character-wise map. -/
def escapeChar (c : Char) : List Char :=
  if c = '&' then "&amp;".data
  else if c = '<' then "&lt;".data
  else if c = '>' then "&gt;".data
  else if c = Char.ofNat 34 then "&quot;".data
  else if c = Char.ofNat 39 then "&#x27;".data
  else [c]

/-- `html.escape` over a character list. -/
def escList : List Char → List Char
  | [] => []
  | c :: cs => escapeChar c ++ escList cs

/-- `html.escape(s, quote=True)` (used at lines 195, 217, 218). -/
def html_escape (s : String) : String :=
  String.mk (escList s.data)

/-- `PROSODY_PRESETS` of `synthesize_sdk` (lines 198-203): rate and pitch
per named style, `None` for any other style (`dict.get`, line 204). -/
def PROSODY_PRESETS (style : String) : Option (String × String) :=
  if style = "Cheerful" then some ("+8%", "+5%")
  else if style = "Excited" then some ("+12%", "+8%")
  else if style = "Friendly" then some ("+5%", "+3%")
  else if style = "Enthusiastic" then some ("+10%", "+6%")
  else none

/-- `inner` of `synthesize_sdk` (lines 204-210): with a preset, the
`prosody`-wrapped `lang` element; without, the bare `lang` element.  The
locale is interpolated raw; the text argument is already escaped by the
caller. -/
def sdkInner (lang escapedText : String) (pros : Option (String × String)) : String :=
  match pros with
  | some (r, p) =>
    "<prosody rate='" ++ r ++ "' pitch='" ++ p ++ "'>" ++
      "<lang xml:lang='" ++ lang ++ "'>" ++ escapedText ++ "</lang>" ++ "</prosody>"
  | none => "<lang xml:lang='" ++ lang ++ "'>" ++ escapedText ++ "</lang>"

/-- The SSML document of `synthesize_sdk` (lines 192-223): profile id and
style pass through `html.escape`, the text was escaped at line 195, and the
locale is interpolated raw into both `xml:lang` attributes. -/
def buildSsml (c : Config) (text : String) : String :=
  "<speak version='1.0' xml:lang='" ++ c.SPEECH_LANGUAGE ++ "' " ++
    "xmlns='http://www.w3.org/2001/10/synthesis' " ++
    "xmlns:mstts='http://www.w3.org/2001/mstts'>" ++
    "<voice name='DragonLatestNeural'>" ++
    "<mstts:ttsembedding speakerProfileId='" ++ html_escape c.SPEAKER_PROFILE_ID ++ "'/>" ++
    "<mstts:express-as style='" ++ html_escape c.SPEECH_STYLE ++ "'>" ++
    sdkInner c.SPEECH_LANGUAGE (html_escape text) (PROSODY_PRESETS c.SPEECH_STYLE) ++
    "</mstts:express-as>" ++
    "</voice>" ++
    "</speak>"

/-- The output-format branch of `synthesize_sdk` (lines 175-184): `"mp3"`
selects the compressed SDK format and `.mp3`; anything else selects the
RIFF/WAV format and `.wav`. -/
structure SdkSetup where
  sdkFormat : String
  output_file : String
deriving DecidableEq

/-- Lines 175-184 of `synthesize_sdk`. -/
def sdkSetup (c : Config) : SdkSetup :=
  if c.OUTPUT_FORMAT = "mp3" then
    { sdkFormat := "Audio24Khz160KBitRateMonoMp3", output_file := c.OUTPUT_FILENAME ++ ".mp3" }
  else
    { sdkFormat := "Riff24Khz16BitMonoPcm", output_file := c.OUTPUT_FILENAME ++ ".wav" }

/-- A configuration as `load_config` would return it with typical values
(used to instantiate counterexamples and witnesses). -/
def sampleConfig : Config :=
  { SPEECH_KEY := "key123"
    SPEECH_REGION := "westeurope"
    SPEAKER_PROFILE_ID := "profile-42"
    SPEECH_LANGUAGE := "en-US"
    SPEECH_STYLE := "Cheerful"
    OUTPUT_FORMAT := "wav"
    OUTPUT_FILENAME := "output" }

/-- A trial synthesis response as the success branch expects it. -/
def sampleOkResponse : TrialResponse :=
  { status := 200
    contentType := "audio/wav"
    content := [82, 73, 70, 70]
    body := BodyJson.notJson
    text := "" }

/-- A failed trial synthesis response with a structured error body. -/
def sampleErrResponse : TrialResponse :=
  { status := 400
    contentType := "application/json"
    content := []
    body := BodyJson.object
        (ErrorField.object (some "Bad request") (InnerErrorField.object (some "quota exceeded")))
    text := "raw body" }

/-- "HTTP success status" in its standard meaning, following the spec's
words (a 2xx status class); kept separate from the program's own test so
the two can be compared. -/
def specHttpSuccess (s : Nat) : Prop :=
  200 ≤ s ∧ s ≤ 299

/-- Whether a character list contains `'<'` directly followed by `'p'`
(every occurrence of a `prosody` tag starts this way, and no other tag of
the generated document does). -/
def headIsP : List Char → Bool
  | [] => false
  | c :: _ => c == 'p'

/-- See `headIsP`: scans for an adjacent `'<'`, `'p'` pair. -/
def hasLtp : List Char → Bool
  | [] => false
  | c :: cs => ((c == '<') && headIsP cs) || hasLtp cs

theorem hasLtp_append_left (s u : List Char) : hasLtp (s ++ '<' :: 'p' :: u) = true := by
  induction s with
  | nil => simp [hasLtp, headIsP]
  | cons c cs ih => simp [hasLtp, ih]

theorem hasLtp_of_sub (l : List Char) (h : ['<', 'p'] <:+: l) : hasLtp l = true := by
  obtain ⟨s, t, hst⟩ := h
  have hl : l = s ++ '<' :: 'p' :: t := by rw [← hst]; simp
  rw [hl]
  exact hasLtp_append_left s t

theorem hasLtp_append_false (b : List Char) (hb : hasLtp b = false) :
    ∀ a : List Char, hasLtp a = false →
      (a.getLast? ≠ some '<' ∨ headIsP b = false) → hasLtp (a ++ b) = false := by
  intro a
  induction a with
  | nil => intro _ _; simpa using hb
  | cons c a' ih =>
    intro ha hbr
    simp only [hasLtp] at ha
    have ha1 := (Bool.or_eq_false_iff.mp ha).1
    have ha2 := (Bool.or_eq_false_iff.mp ha).2
    cases a' with
    | nil =>
      rw [List.singleton_append]
      simp only [hasLtp]
      have hcb : ((c == '<') && headIsP b) = false := by
        rcases hbr with h | h
        · have hc : (c == '<') = false := by
            apply Bool.eq_false_iff.mpr
            intro hcc
            exact h (by rw [List.getLast?_singleton, beq_iff_eq.mp hcc])
          rw [hc, Bool.false_and]
        · rw [h, Bool.and_false]
      rw [hcb, hb, Bool.or_false]
    | cons d a'' =>
      have hbr' : (d :: a'').getLast? ≠ some '<' ∨ headIsP b = false := by
        rcases hbr with h | h
        · left; rwa [List.getLast?_cons_cons] at h
        · right; exact h
      have htail : hasLtp ((d :: a'') ++ b) = false := ih ha2 hbr'
      rw [List.cons_append]
      simp only [hasLtp]
      rw [Bool.or_eq_false_iff]
      exact ⟨ha1, htail⟩

theorem hasLtp_eq_false_of_no_lt (l : List Char) (h : '<' ∉ l) : hasLtp l = false := by
  induction l with
  | nil => rfl
  | cons c cs ih =>
    simp only [List.mem_cons, not_or] at h
    have hc : (c == '<') = false := by
      apply Bool.eq_false_iff.mpr
      intro hcc
      exact h.1 (beq_iff_eq.mp hcc).symm
    simp only [hasLtp]
    rw [hc, Bool.false_and, Bool.false_or]
    exact ih h.2

theorem getLast?_ne_of_no_lt (l : List Char) (h : '<' ∉ l) : l.getLast? ≠ some '<' := by
  intro hl
  obtain ⟨hne, heq⟩ := List.mem_getLast?_eq_getLast (show '<' ∈ l.getLast? from hl)
  exact h (heq ▸ List.getLast_mem hne)

theorem escapeChar_mem (c x : Char) (hx : x ∈ escapeChar c) :
    x ≠ '<' ∧ x ≠ '>' ∧ x ≠ Char.ofNat 39 ∧ x ≠ Char.ofNat 34 := by
  unfold escapeChar at hx
  split at hx
  · have hx' : x ∈ ['&', 'a', 'm', 'p', ';'] := hx
    fin_cases hx' <;> decide
  · split at hx
    · have hx' : x ∈ ['&', 'l', 't', ';'] := hx
      fin_cases hx' <;> decide
    · split at hx
      · have hx' : x ∈ ['&', 'g', 't', ';'] := hx
        fin_cases hx' <;> decide
      · split at hx
        · have hx' : x ∈ ['&', 'q', 'u', 'o', 't', ';'] := hx
          fin_cases hx' <;> decide
        · split at hx
          · have hx' : x ∈ ['&', '#', 'x', '2', '7', ';'] := hx
            fin_cases hx' <;> decide
          · rename_i h1 h2 h3 h4 h5
            have hxc : x = c := by simpa using hx
            subst hxc
            exact ⟨fun h => h2 h, fun h => h3 h, fun h => h5 h, fun h => h4 h⟩

theorem escList_mem (s : List Char) (x : Char) (hx : x ∈ escList s) :
    x ≠ '<' ∧ x ≠ '>' ∧ x ≠ Char.ofNat 39 ∧ x ≠ Char.ofNat 34 := by
  induction s with
  | nil => simp [escList] at hx
  | cons c cs ih =>
    simp only [escList, List.mem_append] at hx
    rcases hx with hx | hx
    · exact escapeChar_mem c x hx
    · exact ih hx

theorem html_escape_no_lt (s : String) : '<' ∉ (html_escape s).data := by
  intro h
  exact (escList_mem s.data '<' h).1 rfl

theorem hasLtp_escList (s : List Char) : hasLtp (escList s) = false :=
  hasLtp_eq_false_of_no_lt _ (fun h => (escList_mem s '<' h).1 rfl)

theorem getLast?_escList (s : List Char) : (escList s).getLast? ≠ some '<' :=
  getLast?_ne_of_no_lt _ (fun h => (escList_mem s '<' h).1 rfl)

/-- C1: the spec says a file holding only a fenced code block extracts to
empty text and hits the empty-text fatal exit.  In the code, the inline-code
pass of line 72 runs before the fence pass of line 74 and consumes one
backtick of each triple fence, so the fence pass no longer sees a triple
backtick: the content survives, the result is non-empty, and `main`'s
empty-text check does not fire. -/
theorem C1_fence_block_not_removed :
    extractText "```\ncode\n```\n" = "``\ncode\n``"
      ∧ emptyTextFatal (extractText "```\ncode\n```\n") = false := by
  decide

/-- C8: the documented end-to-end scenario: heading marker, bold markers and
the link collapse, leaving exactly the narrated sentence after the final
trim. -/
theorem C8_end_to_end_extraction :
    extractText "# Hello\n\nThis is **bold** and a [link](http://x).\n" =
      "Hello\n\nThis is bold and a link." := by
  decide

/-- C2 counterexample: with a CLI `-o demo` override, `main` mutates
`OUTPUT_FILENAME` after `load_config` returned, so the configuration seen by
the prober and the synthesis branches differs from the configuration as
loaded. -/
theorem C2_cli_override_mutates_config :
    (mainDispatch sampleConfig (some "demo") (ProbeOutcome.response 200)).usedConfig
      ≠ sampleConfig := by
  decide

/-- C2 (amended): after loading, the only mutation is the optional CLI
output-filename override, applied once before the probe; the prober and both
synthesis branches then see that same post-override configuration, which
agrees with the loaded one on every field except (at most) the output
filename. -/
theorem C2_config_after_override (loaded : Config) (cliOutput : Option String)
    (probe : ProbeOutcome) :
    (mainDispatch loaded cliOutput probe).usedConfig = mainConfig loaded cliOutput
      ∧ mainConfig loaded none = loaded
      ∧ (∀ o : String,
          (mainConfig loaded (some o)).OUTPUT_FILENAME = o
            ∧ (mainConfig loaded (some o)).SPEECH_KEY = loaded.SPEECH_KEY
            ∧ (mainConfig loaded (some o)).SPEECH_REGION = loaded.SPEECH_REGION
            ∧ (mainConfig loaded (some o)).SPEAKER_PROFILE_ID = loaded.SPEAKER_PROFILE_ID
            ∧ (mainConfig loaded (some o)).SPEECH_LANGUAGE = loaded.SPEECH_LANGUAGE
            ∧ (mainConfig loaded (some o)).SPEECH_STYLE = loaded.SPEECH_STYLE
            ∧ (mainConfig loaded (some o)).OUTPUT_FORMAT = loaded.OUTPUT_FORMAT) := by
  refine ⟨rfl, rfl, ?_⟩
  intro o
  exact ⟨rfl, rfl, rfl, rfl, rfl, rfl, rfl⟩

/-- C4 counterexample: 204 is an HTTP success status, yet the prober
classifies it as not-trial — the code tests `status == 200`, not the
success class. -/
theorem C4_success_204_not_trial :
    specHttpSuccess 204
      ∧ is_trial_voice (ProbeOutcome.response 204) = false
      ∧ (mainDispatch sampleConfig none (ProbeOutcome.response 204)).branch
          = Branch.expressive := by
  refine ⟨⟨by decide, by decide⟩, by decide, by decide⟩

/-- C4 (amended): a probe response with status exactly 200 classifies the
profile as trial; any other status — other success statuses included — or a
network failure classifies it as not-trial, with no exception escaping the
prober; in particular an HTTP 404 probe response selects the expressive
branch, never the trial branch. -/
theorem C4_probe_classification (loaded : Config) (cliOutput : Option String)
    (o : ProbeOutcome) :
    (mainDispatch loaded cliOutput o).branch
        = (if o = ProbeOutcome.response 200 then Branch.trial else Branch.expressive)
      ∧ is_trial_voice ProbeOutcome.networkFailure = false
      ∧ (mainDispatch loaded cliOutput (ProbeOutcome.response 404)).branch
          = Branch.expressive := by
  refine ⟨?_, rfl, rfl⟩
  cases o with
  | response s =>
    by_cases hs : s = 200
    · subst hs; rfl
    · have h1 : is_trial_voice (ProbeOutcome.response s) = false := by
        simpa [is_trial_voice] using hs
      have h2 : ProbeOutcome.response s ≠ ProbeOutcome.response 200 := by
        simpa using hs
      simp [mainDispatch, h1, h2]
  | networkFailure => rfl

/-- C3: for the two supported formats the trial path's
`f"{OUTPUT_FILENAME}.{OUTPUT_FORMAT}"` and the SDK path's branch both yield
the configured base filename plus an extension equal to the configured
format. -/
theorem C3_output_path_convention (c : Config)
    (h : c.OUTPUT_FORMAT = "wav" ∨ c.OUTPUT_FORMAT = "mp3") :
    trialOutputFile c = c.OUTPUT_FILENAME ++ "." ++ c.OUTPUT_FORMAT
      ∧ (sdkSetup c).output_file = trialOutputFile c := by
  refine ⟨rfl, ?_⟩
  rcases h with h | h
  · have hne : ¬ c.OUTPUT_FORMAT = "mp3" := by rw [h]; decide
    rw [sdkSetup, if_neg hne, trialOutputFile, h, String.append_assoc]
    rfl
  · rw [sdkSetup, if_pos h, trialOutputFile, h, String.append_assoc]
    rfl

theorem C3_output_path_witness :
    (trialOutputFile sampleConfig
          = sampleConfig.OUTPUT_FILENAME ++ "." ++ sampleConfig.OUTPUT_FORMAT
        ∧ (sdkSetup sampleConfig).output_file = trialOutputFile sampleConfig)
      ∧ (trialOutputFile { sampleConfig with OUTPUT_FORMAT := "mp3" }
          = "output" ++ "." ++ "mp3"
        ∧ (sdkSetup { sampleConfig with OUTPUT_FORMAT := "mp3" }).output_file
          = trialOutputFile { sampleConfig with OUTPUT_FORMAT := "mp3" }) :=
  ⟨C3_output_path_convention sampleConfig (Or.inl rfl),
   C3_output_path_convention { sampleConfig with OUTPUT_FORMAT := "mp3" } (Or.inr rfl)⟩

/-- C6: the `scriptOrder` of the trial request body is the fixed table's
value for a listed locale and the default 11 for an unlisted locale; the
table maps es-ES, a locale with a non-default value, to 13. -/
theorem C6_script_order_lookup (c : Config) (text : String) :
    (∀ v, SCRIPT_ORDER_BY_LOCALE.lookup c.SPEECH_LANGUAGE = some v →
        (trialBody c text).scriptOrder = v)
      ∧ (SCRIPT_ORDER_BY_LOCALE.lookup c.SPEECH_LANGUAGE = none →
        (trialBody c text).scriptOrder = 11)
      ∧ SCRIPT_ORDER_BY_LOCALE.lookup "es-ES" = some 13 := by
  refine ⟨?_, ?_, by decide⟩
  · intro v hv
    simp [trialBody, scriptOrderFor, hv]
  · intro hv
    simp [trialBody, scriptOrderFor, hv]

theorem C6_script_order_witness :
    (trialBody { sampleConfig with SPEECH_LANGUAGE := "es-ES" } "hi").scriptOrder = 13
      ∧ (trialBody { sampleConfig with SPEECH_LANGUAGE := "xx-XX" } "hi").scriptOrder = 11 :=
  ⟨(C6_script_order_lookup { sampleConfig with SPEECH_LANGUAGE := "es-ES" } "hi").1
      13 (by decide),
   (C6_script_order_lookup { sampleConfig with SPEECH_LANGUAGE := "xx-XX" } "hi").2.1
      (by decide)⟩

/-- C5: status 200 with an audio content type writes the body verbatim to
the configured path and exits 0; anything else writes no file, reports the
status with the extracted diagnostic, and exits 1; a structured error body
yields the primary message plus the non-empty nested inner message; under
format `wav` the output path is the base name plus `.wav`. -/
theorem C5_trial_response_handling (c : Config) (r : TrialResponse) :
    (r.status = 200 → "audio".data <:+: r.contentType.data →
        synthesize_trial c r =
          { written := some (c.OUTPUT_FILENAME ++ "." ++ c.OUTPUT_FORMAT, r.content)
            exitCode := 0
            failReport := none })
      ∧ (¬ (r.status = 200 ∧ "audio".data <:+: r.contentType.data) →
        (synthesize_trial c r).written = none
          ∧ (synthesize_trial c r).exitCode = 1
          ∧ (synthesize_trial c r).failReport = some (r.status, extractFail r))
      ∧ (c.OUTPUT_FORMAT = "wav" →
        trialOutputFile c = c.OUTPUT_FILENAME ++ ".wav")
      ∧ (∀ m i, i ≠ "" →
        r.body = BodyJson.object (ErrorField.object (some m) (InnerErrorField.object (some i))) →
        extractFail r = FailDetail.structured m (some i)) := by
  refine ⟨?_, ?_, ?_, ?_⟩
  · intro h1 h2
    have hok : audioOk r = true := by
      simp [audioOk, h1, h2]
    simp [synthesize_trial, hok, trialOutputFile]
  · intro h
    have hok : audioOk r = false := by
      apply Bool.eq_false_iff.mpr
      intro hT
      apply h
      simpa [audioOk] using hT
    simp [synthesize_trial, hok]
  · intro h
    rw [trialOutputFile, h, String.append_assoc]
    rfl
  · intro m i hi hb
    simp [extractFail, hb, hi]

theorem C5_trial_response_witness :
    (synthesize_trial sampleConfig sampleOkResponse =
        { written := some ("output" ++ "." ++ "wav", [82, 73, 70, 70])
          exitCode := 0
          failReport := none })
      ∧ extractFail sampleErrResponse
          = FailDetail.structured "Bad request" (some "quota exceeded") :=
  ⟨(C5_trial_response_handling sampleConfig sampleOkResponse).1 rfl (by decide),
   (C5_trial_response_handling sampleConfig sampleErrResponse).2.2.2
      "Bad request" "quota exceeded" (by decide) rfl⟩

theorem html_escape_data (s : String) : (html_escape s).data = escList s.data := rfl

set_option maxRecDepth 8000 in
theorem buildSsml_data_none (c : Config) (text : String)
    (hP : PROSODY_PRESETS c.SPEECH_STYLE = none) :
    (buildSsml c text).data =
      "<speak version='1.0' xml:lang='".data ++ c.SPEECH_LANGUAGE.data ++ "' ".data ++
        "xmlns='http://www.w3.org/2001/10/synthesis' ".data ++
        "xmlns:mstts='http://www.w3.org/2001/mstts'>".data ++
        "<voice name='DragonLatestNeural'>".data ++
        "<mstts:ttsembedding speakerProfileId='".data ++ escList c.SPEAKER_PROFILE_ID.data ++
        "'/>".data ++ "<mstts:express-as style='".data ++ escList c.SPEECH_STYLE.data ++
        "'>".data ++ "<lang xml:lang='".data ++ c.SPEECH_LANGUAGE.data ++ "'>".data ++
        escList text.data ++ "</lang>".data ++
        "</mstts:express-as>".data ++ "</voice>".data ++ "</speak>".data := by
  simp [buildSsml, sdkInner, hP, String.data_append, html_escape_data, List.append_assoc]

set_option maxRecDepth 8000 in
theorem buildSsml_data_some (c : Config) (text : String) (r p : String)
    (hP : PROSODY_PRESETS c.SPEECH_STYLE = some (r, p)) :
    (buildSsml c text).data =
      "<speak version='1.0' xml:lang='".data ++ c.SPEECH_LANGUAGE.data ++ "' ".data ++
        "xmlns='http://www.w3.org/2001/10/synthesis' ".data ++
        "xmlns:mstts='http://www.w3.org/2001/mstts'>".data ++
        "<voice name='DragonLatestNeural'>".data ++
        "<mstts:ttsembedding speakerProfileId='".data ++ escList c.SPEAKER_PROFILE_ID.data ++
        "'/>".data ++ "<mstts:express-as style='".data ++ escList c.SPEECH_STYLE.data ++
        "'>".data ++ "<prosody rate='".data ++ r.data ++ "' pitch='".data ++ p.data ++
        "'>".data ++ "<lang xml:lang='".data ++ c.SPEECH_LANGUAGE.data ++ "'>".data ++
        escList text.data ++ "</lang>".data ++ "</prosody>".data ++
        "</mstts:express-as>".data ++ "</voice>".data ++ "</speak>".data := by
  simp [buildSsml, sdkInner, hP, String.data_append, html_escape_data, List.append_assoc]

set_option maxRecDepth 8000 in
theorem sdkInner_langElem_sub (lang et : String) (pros : Option (String × String)) :
    ("<lang xml:lang='" ++ lang ++ "'>" ++ et ++ "</lang>").data
      <:+: (sdkInner lang et pros).data := by
  cases pros with
  | none => exact ⟨[], [], by simp [sdkInner, String.data_append, List.append_assoc]⟩
  | some rp =>
    obtain ⟨r, p⟩ := rp
    exact ⟨("<prosody rate='".data ++ r.data ++ "' pitch='".data ++ p.data ++ "'>".data),
      "</prosody>".data,
      by simp [sdkInner, String.data_append, List.append_assoc]⟩

set_option maxRecDepth 8000 in
theorem buildSsml_inner_sub (c : Config) (text : String) :
    (sdkInner c.SPEECH_LANGUAGE (html_escape text) (PROSODY_PRESETS c.SPEECH_STYLE)).data
      <:+: (buildSsml c text).data :=
  ⟨("<speak version='1.0' xml:lang='".data ++ c.SPEECH_LANGUAGE.data ++ "' ".data ++
      "xmlns='http://www.w3.org/2001/10/synthesis' ".data ++
      "xmlns:mstts='http://www.w3.org/2001/mstts'>".data ++
      "<voice name='DragonLatestNeural'>".data ++
      "<mstts:ttsembedding speakerProfileId='".data ++ escList c.SPEAKER_PROFILE_ID.data ++
      "'/>".data ++ "<mstts:express-as style='".data ++ escList c.SPEECH_STYLE.data ++
      "'>".data),
   ("</mstts:express-as>".data ++ "</voice>".data ++ "</speak>".data),
   by simp [buildSsml, String.data_append, html_escape_data, List.append_assoc]⟩

set_option maxRecDepth 8000 in
/-- C7: with a preset style the document carries that preset's exact
rate/pitch prosody element; Cheerful's preset is rate +8%, pitch +5%; with
any other style the express-as element directly wraps the bare lang element
(escaped style in its attribute, no prosody element anywhere in the
document as long as the raw-interpolated locale contributes no markup). -/
theorem C7_prosody_presets (c : Config) (text : String) :
    (∀ r p, PROSODY_PRESETS c.SPEECH_STYLE = some (r, p) →
        ("<prosody rate='" ++ r ++ "' pitch='" ++ p ++ "'>").data <:+: (buildSsml c text).data)
      ∧ PROSODY_PRESETS "Cheerful" = some ("+8%", "+5%")
      ∧ (PROSODY_PRESETS c.SPEECH_STYLE = none →
        ("<mstts:express-as style='" ++ html_escape c.SPEECH_STYLE ++ "'>" ++
            "<lang xml:lang='" ++ c.SPEECH_LANGUAGE ++ "'>" ++ html_escape text ++ "</lang>" ++
            "</mstts:express-as>").data <:+: (buildSsml c text).data
          ∧ ('<' ∉ c.SPEECH_LANGUAGE.data →
            ¬ ("<prosody".data <:+: (buildSsml c text).data))) := by
  refine ⟨?_, rfl, ?_⟩
  · intro r p hP
    refine ⟨("<speak version='1.0' xml:lang='".data ++ c.SPEECH_LANGUAGE.data ++ "' ".data ++
        "xmlns='http://www.w3.org/2001/10/synthesis' ".data ++
        "xmlns:mstts='http://www.w3.org/2001/mstts'>".data ++
        "<voice name='DragonLatestNeural'>".data ++
        "<mstts:ttsembedding speakerProfileId='".data ++ escList c.SPEAKER_PROFILE_ID.data ++
        "'/>".data ++ "<mstts:express-as style='".data ++ escList c.SPEECH_STYLE.data ++
        "'>".data),
      ("<lang xml:lang='".data ++ c.SPEECH_LANGUAGE.data ++ "'>".data ++
        escList text.data ++ "</lang>".data ++ "</prosody>".data ++
        "</mstts:express-as>".data ++ "</voice>".data ++ "</speak>".data), ?_⟩
    rw [buildSsml_data_some c text r p hP]
    simp [String.data_append, List.append_assoc]
  · intro hP
    constructor
    · refine ⟨("<speak version='1.0' xml:lang='".data ++ c.SPEECH_LANGUAGE.data ++ "' ".data ++
          "xmlns='http://www.w3.org/2001/10/synthesis' ".data ++
          "xmlns:mstts='http://www.w3.org/2001/mstts'>".data ++
          "<voice name='DragonLatestNeural'>".data ++
          "<mstts:ttsembedding speakerProfileId='".data ++ escList c.SPEAKER_PROFILE_ID.data ++
          "'/>".data),
        ("</voice>".data ++ "</speak>".data), ?_⟩
      rw [buildSsml_data_none c text hP]
      simp [String.data_append, html_escape_data, List.append_assoc]
    · intro hlang hsub
      have h2p : ['<', 'p'] <:+: (buildSsml c text).data :=
        List.IsInfix.trans (by decide) hsub
      have htrue := hasLtp_of_sub _ h2p
      have hfalse : hasLtp (buildSsml c text).data = false := by
        rw [buildSsml_data_none c text hP]
        simp only [List.append_assoc]
        refine hasLtp_append_false _ ?_ _ (by decide) (Or.inl (by decide))
        refine hasLtp_append_false _ ?_ _ (hasLtp_eq_false_of_no_lt _ hlang)
          (Or.inl (getLast?_ne_of_no_lt _ hlang))
        refine hasLtp_append_false _ ?_ _ (by decide) (Or.inl (by decide))
        refine hasLtp_append_false _ ?_ _ (by decide) (Or.inl (by decide))
        refine hasLtp_append_false _ ?_ _ (by decide) (Or.inl (by decide))
        refine hasLtp_append_false _ ?_ _ (by decide) (Or.inl (by decide))
        refine hasLtp_append_false _ ?_ _ (by decide) (Or.inl (by decide))
        refine hasLtp_append_false _ ?_ _ (hasLtp_escList _) (Or.inl (getLast?_escList _))
        refine hasLtp_append_false _ ?_ _ (by decide) (Or.inl (by decide))
        refine hasLtp_append_false _ ?_ _ (by decide) (Or.inl (by decide))
        refine hasLtp_append_false _ ?_ _ (hasLtp_escList _) (Or.inl (getLast?_escList _))
        refine hasLtp_append_false _ ?_ _ (by decide) (Or.inl (by decide))
        refine hasLtp_append_false _ ?_ _ (by decide) (Or.inl (by decide))
        refine hasLtp_append_false _ ?_ _ (hasLtp_eq_false_of_no_lt _ hlang)
          (Or.inl (getLast?_ne_of_no_lt _ hlang))
        refine hasLtp_append_false _ ?_ _ (by decide) (Or.inl (by decide))
        refine hasLtp_append_false _ ?_ _ (hasLtp_escList _) (Or.inl (getLast?_escList _))
        refine hasLtp_append_false _ ?_ _ (by decide) (Or.inl (by decide))
        refine hasLtp_append_false _ ?_ _ (by decide) (Or.inl (by decide))
        refine hasLtp_append_false _ ?_ _ (by decide) (Or.inl (by decide))
        decide
      rw [htrue] at hfalse
      exact Bool.noConfusion hfalse

theorem C7_prosody_witness :
    ("<prosody rate='" ++ "+8%" ++ "' pitch='" ++ "+5%" ++ "'>").data
        <:+: (buildSsml sampleConfig "hi").data
      ∧ ¬ ("<prosody".data
        <:+: (buildSsml { sampleConfig with SPEECH_STYLE := "Narration" } "hi").data) :=
  ⟨(C7_prosody_presets sampleConfig "hi").1 "+8%" "+5%" (by decide),
   ((C7_prosody_presets { sampleConfig with SPEECH_STYLE := "Narration" } "hi").2.2
      (by decide)).2 (by decide)⟩

set_option maxRecDepth 8000 in
/-- C9: the tts-embedding element carries the escaped profile id as its
attribute value, the express-as element the escaped style, the lang element
wraps the escaped text, and `html.escape` output never contains a raw `<`,
`>`, single or double quote — the escaping happens before insertion. -/
theorem C9_escaped_markup_insertion (c : Config) (text : String) :
    ("<mstts:ttsembedding speakerProfileId='" ++ html_escape c.SPEAKER_PROFILE_ID ++ "'/>").data
        <:+: (buildSsml c text).data
      ∧ ("<mstts:express-as style='" ++ html_escape c.SPEECH_STYLE ++ "'>").data
        <:+: (buildSsml c text).data
      ∧ ("<lang xml:lang='" ++ c.SPEECH_LANGUAGE ++ "'>" ++ html_escape text ++ "</lang>").data
        <:+: (buildSsml c text).data
      ∧ (∀ s : String, '<' ∉ (html_escape s).data ∧ '>' ∉ (html_escape s).data
        ∧ Char.ofNat 39 ∉ (html_escape s).data ∧ Char.ofNat 34 ∉ (html_escape s).data) := by
  refine ⟨?_, ?_, ?_, ?_⟩
  · refine ⟨("<speak version='1.0' xml:lang='".data ++ c.SPEECH_LANGUAGE.data ++ "' ".data ++
        "xmlns='http://www.w3.org/2001/10/synthesis' ".data ++
        "xmlns:mstts='http://www.w3.org/2001/mstts'>".data ++
        "<voice name='DragonLatestNeural'>".data),
      ("<mstts:express-as style='".data ++ escList c.SPEECH_STYLE.data ++ "'>".data ++
        (sdkInner c.SPEECH_LANGUAGE (html_escape text) (PROSODY_PRESETS c.SPEECH_STYLE)).data ++
        "</mstts:express-as>".data ++ "</voice>".data ++ "</speak>".data), ?_⟩
    simp [buildSsml, String.data_append, html_escape_data, List.append_assoc]
  · refine ⟨("<speak version='1.0' xml:lang='".data ++ c.SPEECH_LANGUAGE.data ++ "' ".data ++
        "xmlns='http://www.w3.org/2001/10/synthesis' ".data ++
        "xmlns:mstts='http://www.w3.org/2001/mstts'>".data ++
        "<voice name='DragonLatestNeural'>".data ++
        "<mstts:ttsembedding speakerProfileId='".data ++ escList c.SPEAKER_PROFILE_ID.data ++
        "'/>".data),
      ((sdkInner c.SPEECH_LANGUAGE (html_escape text) (PROSODY_PRESETS c.SPEECH_STYLE)).data ++
        "</mstts:express-as>".data ++ "</voice>".data ++ "</speak>".data), ?_⟩
    simp [buildSsml, String.data_append, html_escape_data, List.append_assoc]
  · exact List.IsInfix.trans
      (sdkInner_langElem_sub c.SPEECH_LANGUAGE (html_escape text) (PROSODY_PRESETS c.SPEECH_STYLE))
      (buildSsml_inner_sub c text)
  · intro s
    exact ⟨fun h => (escList_mem s.data '<' h).1 rfl,
      fun h => (escList_mem s.data '>' h).2.1 rfl,
      fun h => (escList_mem s.data (Char.ofNat 39) h).2.2.1 rfl,
      fun h => (escList_mem s.data (Char.ofNat 34) h).2.2.2 rfl⟩

set_option maxRecDepth 20000 in
/-- C10 (implicit): the configured locale is interpolated verbatim — not
escaped — into the `xml:lang` attribute of the outer speak element and of
the inner lang element; with the locale `en'US` the quote character stands
raw in the generated document. -/
theorem C10_locale_inserted_raw (c : Config) (text : String) :
    ("<speak version='1.0' xml:lang='" ++ c.SPEECH_LANGUAGE ++ "' ").data
        <+: (buildSsml c text).data
      ∧ ("<lang xml:lang='" ++ c.SPEECH_LANGUAGE ++ "'>").data <:+: (buildSsml c text).data
      ∧ ("xml:lang='en'US'").data
        <:+: (buildSsml { sampleConfig with SPEECH_LANGUAGE := "en'US" } "hi").data := by
  refine ⟨?_, ?_, ?_⟩
  · refine ⟨("xmlns='http://www.w3.org/2001/10/synthesis' ".data ++
        "xmlns:mstts='http://www.w3.org/2001/mstts'>".data ++
        "<voice name='DragonLatestNeural'>".data ++
        "<mstts:ttsembedding speakerProfileId='".data ++ escList c.SPEAKER_PROFILE_ID.data ++
        "'/>".data ++ "<mstts:express-as style='".data ++ escList c.SPEECH_STYLE.data ++
        "'>".data ++
        (sdkInner c.SPEECH_LANGUAGE (html_escape text) (PROSODY_PRESETS c.SPEECH_STYLE)).data ++
        "</mstts:express-as>".data ++ "</voice>".data ++ "</speak>".data), ?_⟩
    simp [buildSsml, String.data_append, html_escape_data, List.append_assoc]
  · have h1 : ("<lang xml:lang='" ++ c.SPEECH_LANGUAGE ++ "'>").data
        <+: ("<lang xml:lang='" ++ c.SPEECH_LANGUAGE ++ "'>" ++ html_escape text ++
          "</lang>").data :=
      ⟨(html_escape text).data ++ "</lang>".data,
        by simp [String.data_append, List.append_assoc]⟩
    exact List.IsInfix.trans
      (List.IsInfix.trans h1.isInfix
        (sdkInner_langElem_sub c.SPEECH_LANGUAGE (html_escape text)
          (PROSODY_PRESETS c.SPEECH_STYLE)))
      (buildSsml_inner_sub c text)
  · decide
